import Mathlib

/-!
Verification of the constraint-compilation layer of the EdgeDB pgsql backend
(`edb/pgsql/deltadbops.py` and `edb/pgsql/dbops/roles.py`).

The Python classes are shallowly embedded as Lean structures and pure
functions.  Identifier quoting (`common.quote_ident`), literal quoting
(`common.quote_literal`), name mangling (`common.edgedb_name_to_pg_name`) and
backend-name derivation (`common.get_backend_name`) live outside the sources
under verification; per the specification they are opaque total functions on
strings, so they are carried as parameters in an `Env` record.

Command groups are modelled as lists of `Cmd` values: each `Cmd` is one
command object added by the lifecycle methods (`add_command`/`add_commands`),
in order.  Fallible rendering (`constraint_code` of a table or domain
constraint, and the `code` methods that consume it) is modelled with
`Except String`.
-/

namespace Edb

/-! ### Decimal representation helpers

`numbered_constraint_name` embeds the decimal representation of the fragment
index into the physical constraint name (Python `'{}#{}'.format(raw_name, i)`,
embedded as `Nat.repr`).  To reason about collision-freedom of the numbered
names we need injectivity of `Nat.repr`, which is proved here via an explicit
decimal decoder. -/

/-- Inverse of `Nat.digitChar` on decimal digits. -/
def decodeDigit (c : Char) : Nat :=
  if c = '0' then 0 else
  if c = '1' then 1 else
  if c = '2' then 2 else
  if c = '3' then 3 else
  if c = '4' then 4 else
  if c = '5' then 5 else
  if c = '6' then 6 else
  if c = '7' then 7 else
  if c = '8' then 8 else
  if c = '9' then 9 else
  0

/-- Decode a big-endian list of decimal digit characters. -/
def decodeDigits (l : List Char) : Nat :=
  l.foldl (fun acc c => 10 * acc + decodeDigit c) 0

theorem decodeDigit_digitChar {d : Nat} (h : d < 10) :
    decodeDigit (Nat.digitChar d) = d := by
  interval_cases d <;> rfl

theorem decodeDigits_append_singleton (l : List Char) (c : Char) :
    decodeDigits (l ++ [c]) = 10 * decodeDigits l + decodeDigit c := by
  simp [decodeDigits, List.foldl_append]

theorem toDigitsCore_append_acc :
    ∀ (f n : Nat) (acc : List Char),
      Nat.toDigitsCore 10 f n acc = Nat.toDigitsCore 10 f n [] ++ acc := by
  intro f
  induction f with
  | zero => intro n acc; simp [Nat.toDigitsCore]
  | succ f ih =>
    intro n acc
    simp only [Nat.toDigitsCore]
    by_cases h : n / 10 = 0
    · simp [h]
    · simp only [h, if_false]
      rw [ih (n / 10) (Nat.digitChar (n % 10) :: acc),
        ih (n / 10) [Nat.digitChar (n % 10)]]
      simp

theorem decodeDigits_toDigitsCore :
    ∀ (f n : Nat), n < f → decodeDigits (Nat.toDigitsCore 10 f n []) = n := by
  intro f
  induction f with
  | zero => intro n h; exact absurd h (Nat.not_lt_zero n)
  | succ f ih =>
    intro n h
    simp only [Nat.toDigitsCore]
    by_cases hdiv : n / 10 = 0
    · have hn : n < 10 := by
        by_contra hge
        have : 10 ≤ n := Nat.le_of_not_lt hge
        have : 1 ≤ n / 10 := (Nat.le_div_iff_mul_le (by decide)).mpr (by omega)
        omega
      simp [hdiv, decodeDigits, Nat.mod_eq_of_lt hn, decodeDigit_digitChar hn]
    · have hn0 : 0 < n := by
        rcases Nat.eq_zero_or_pos n with h0 | h0
        · exact absurd (by simp [h0]) hdiv
        · exact h0
      have hlt : n / 10 < n := Nat.div_lt_self hn0 (by decide)
      have hf : n / 10 < f := Nat.lt_of_lt_of_le hlt (Nat.le_of_lt_succ h)
      simp only [hdiv, if_false]
      rw [toDigitsCore_append_acc f (n / 10) [Nat.digitChar (n % 10)],
        decodeDigits_append_singleton, ih (n / 10) hf,
        decodeDigit_digitChar (Nat.mod_lt n (by decide))]
      exact Nat.div_add_mod n 10

theorem natRepr_injective : Function.Injective Nat.repr := by
  intro m n h
  have hdata : (Nat.toDigits 10 m) = (Nat.toDigits 10 n) :=
    congrArg String.data h
  have hm := decodeDigits_toDigitsCore (m + 1) m (Nat.lt_succ_self m)
  have hn := decodeDigits_toDigitsCore (n + 1) n (Nat.lt_succ_self n)
  have hdec : decodeDigits (Nat.toDigits 10 m) = decodeDigits (Nat.toDigits 10 n) := by
    rw [hdata]
  unfold Nat.toDigits at hdec
  omega

/-! ### Data model

`edb/pgsql/deltadbops.py`: a schema constraint is carried around with its
compiled expression data.  Each element of `exprdata` is a record
`{exprdata: {plain, old, new, plain_chunks}, is_trivial}`. -/

/-- One compiled expression record (`expr['exprdata']` in the source). -/
structure ExprData where
  plain : String
  old : String
  new : String
  plain_chunks : List String
  deriving DecidableEq, Repr

/-- One element of the `exprdata` sequence handed to a constraint. -/
structure ExprFragment where
  exprdata : ExprData
  is_trivial : Bool
  deriving DecidableEq, Repr

/-- Embedding of `SchemaConstraintTableConstraint`: the fields captured by
`ConstraintCommon.__init__` and the constructor of the table constraint.
`constr_id` is `constraint.id`, `delegated` is
`constraint.get_delegated(schema)`, `scope` and `type` are the string-valued
scope and constraint type from the source. -/
structure SchemaConstraintTableConstraint where
  table_name : String × String
  constr_id : String
  delegated : Bool
  exprdata : List ExprFragment
  scope : String
  type : String
  deriving DecidableEq, Repr

/-- Embedding of `SchemaConstraintDomainConstraint`. -/
structure SchemaConstraintDomainConstraint where
  domain_name : String × String
  constr_id : String
  delegated : Bool
  exprdata : List ExprFragment
  deriving DecidableEq, Repr

/-- The opaque helper functions from `edb/pgsql/common.py`, which is not part
of the verified sources.  Modelled from the spec: `mangle` is
`edgedb_name_to_pg_name`, `qi` is `quote_ident`, `ql` is `quote_literal`, and
`procname` is the backend-name derivation used by `get_trigger_procname`
(`get_backend_name(..., aspect='trigproc')`), keyed by the constraint id. -/
structure Env where
  mangle : String → String
  qi : String → String
  ql : String → String
  procname : String → String

/-! ### Constraint naming (`ConstraintCommon`) -/

/-- `ConstraintCommon.raw_constraint_name`. -/
def raw_constraint_name (constr_id : String) : String :=
  constr_id ++ ";" ++ "schemaconstr"

/-- `ConstraintCommon.constraint_name`: mangle the raw name, optionally
quote it. -/
def constraint_name (env : Env) (c : SchemaConstraintTableConstraint)
    (quote : Bool) : String :=
  let name := env.mangle (raw_constraint_name c.constr_id)
  if quote then env.qi name else name

/-- `SchemaConstraintTableConstraint.numbered_constraint_name`: the raw
(unmangled) constraint name with `#i` appended, then mangled and optionally
quoted. -/
def numbered_constraint_name (env : Env) (c : SchemaConstraintTableConstraint)
    (i : Nat) (quote : Bool) : String :=
  let name := env.mangle (raw_constraint_name c.constr_id ++ "#" ++ Nat.repr i)
  if quote then env.qi name else name

/-! ### Constraint rendering -/

/-- One fragment of the `TableWide`/`unique` rendering loop in
`SchemaConstraintTableConstraint.constraint_code`: trivial fragments become
a `UNIQUE` column list, non-trivial ones an `EXCLUDE` constraint pairing
every chunk with the equality operator. -/
def fragment_code (e : ExprFragment) : String :=
  if e.is_trivial then
    "UNIQUE (" ++ String.intercalate ", " e.exprdata.plain_chunks ++ ")"
  else
    "EXCLUDE (" ++
      String.intercalate ", " (e.exprdata.plain_chunks.map (fun chunk => chunk ++ " WITH =")) ++
      ")"

/-- The row-scope expression of `constraint_code`: a single fragment is used
verbatim, several fragments are conjoined with `AND`. -/
def row_check_expr (frags : List ExprFragment) : String :=
  match frags with
  | [e] => e.exprdata.plain
  | es => "(" ++ String.intercalate ") AND (" (es.map (fun e => e.exprdata.plain)) ++ ")"

/-- `SchemaConstraintTableConstraint.constraint_code`.  Row scope yields one
`CHECK` text (`Sum.inl`); any other scope requires `type = "unique"` and
yields the per-fragment list (`Sum.inr`, a Python list); a non-`unique`
table-wide constraint raises `ValueError`. -/
def constraint_code (c : SchemaConstraintTableConstraint) :
    Except String (String ⊕ List String) :=
  if c.scope = "row" then
    Except.ok (Sum.inl ("CHECK (" ++ row_check_expr c.exprdata ++ ")"))
  else if c.type ≠ "unique" then
    Except.error ("unexpected constraint type: " ++ c.type)
  else
    Except.ok (Sum.inr (c.exprdata.map fragment_code))

/-- `SchemaConstraintDomainConstraint.constraint_code`.  The single-fragment
path returns the `CHECK` text; the multi-fragment path of the source
evaluates `self._exprdata['exprdata']`, indexing a Python list with a string
key, which raises `TypeError` before any text is produced. -/
def domain_constraint_code (c : SchemaConstraintDomainConstraint) :
    Except String String :=
  match c.exprdata with
  | [e] => Except.ok ("CHECK (" ++ e.exprdata.plain ++ ")")
  | _ => Except.error "TypeError: list indices must be integers or slices, not str"

/-- `SchemaConstraintTableConstraint.is_multiconstraint`. -/
def is_multiconstraint (c : SchemaConstraintTableConstraint) : Bool :=
  c.scope != "row" && c.exprdata.length > 1

/-- `SchemaConstraintTableConstraint.is_natively_inherited`. -/
def is_natively_inherited (c : SchemaConstraintTableConstraint) : Bool :=
  c.type == "check"

/-! ### Trigger machinery (`get_trigger_condition`, `get_trigger_proc_text`) -/

/-- `SchemaConstraintTableConstraint.get_trigger_condition`: per fragment
`old IS DISTINCT FROM new`, one chunk used verbatim, several disjoined with
`OR`. -/
def get_trigger_condition (c : SchemaConstraintTableConstraint) : String :=
  let chunks := c.exprdata.map
    (fun e => e.exprdata.old ++ " IS DISTINCT FROM " ++ e.exprdata.new)
  match chunks with
  | [ch] => ch
  | chs => "(" ++ String.intercalate ") OR (" chs ++ ")"

/-- The single-quote character, written via its code point so that the
embedded SQL text can carry Python's literal quotes. -/
def sq : String := (Char.ofNat 39).toString

/-- Rendering of the subject-table pair as Python renders the tuple returned
by `get_subject_name()` inside the trigger procedure body. -/
def py_tuple_repr (t : String × String) : String :=
  "(" ++ sq ++ t.1 ++ sq ++ ", " ++ sq ++ t.2 ++ sq ++ ")"

/-- One per-fragment chunk of `get_trigger_proc_text` (the `text = ...
.format(...)` template of the source, whitespace included). -/
def trigger_proc_chunk (subject : String × String)
    (raw_constr errmsg : String) (e : ExprData) : String :=
  "\n                PERFORM\n                    TRUE\n                  FROM\n                    "
    ++ py_tuple_repr subject
    ++ "\n                  WHERE\n                    "
    ++ e.plain ++ " = " ++ e.new
    ++ ";\n                IF FOUND THEN\n                  RAISE unique_violation\n                      USING\n                          TABLE = "
    ++ sq ++ subject.2 ++ sq
    ++ ",\n                          SCHEMA = "
    ++ sq ++ subject.1 ++ sq
    ++ ",\n                          CONSTRAINT = "
    ++ sq ++ raw_constr ++ sq
    ++ ",\n                          MESSAGE = "
    ++ sq ++ errmsg ++ sq
    ++ ",\n                          DETAIL = "
    ++ sq ++ "Key (" ++ e.plain ++ ") already exists." ++ sq
    ++ ";\n                END IF;\n            "

/-- `SchemaConstraintTableConstraint.get_trigger_proc_text`: the duplicate
checks of all fragments concatenated inside one `BEGIN ... RETURN NEW; END;`
body. -/
def get_trigger_proc_text (env : Env) (c : SchemaConstraintTableConstraint) :
    String :=
  let constr_name := constraint_name env c true
  let raw_constr_name := constraint_name env c false
  let errmsg := "duplicate key value violates unique constraint " ++ constr_name
  "BEGIN\n" ++
    String.intercalate "\n\n"
      (c.exprdata.map
        (fun e => trigger_proc_chunk c.table_name raw_constr_name errmsg e.exprdata)) ++
    "\nRETURN NEW;\nEND;"

/-! ### Splitter `code` methods -/

/-- `AlterTableAddMultiConstraint.code`: a Python list of more than one
rendered fragment becomes comma-joined numbered `ADD CONSTRAINT` clauses;
otherwise the single text (head of a one-element list, or the plain string)
is added under the base constraint name.  Taking the head of an empty list
raises `IndexError`. -/
def add_multi_constraint_code (env : Env)
    (c : SchemaConstraintTableConstraint) : Except String String :=
  match constraint_code c with
  | Except.error e => Except.error e
  | Except.ok (Sum.inr exprs) =>
    if 1 < exprs.length then
      Except.ok (String.intercalate ", "
        (exprs.enum.map (fun p =>
          "ADD CONSTRAINT " ++ numbered_constraint_name env c p.1 true ++ " " ++ p.2)))
    else
      match exprs with
      | [] => Except.error "IndexError: list index out of range"
      | e :: _ =>
        Except.ok ("ADD CONSTRAINT " ++ constraint_name env c true ++ " " ++ e)
  | Except.ok (Sum.inl e) =>
    Except.ok ("ADD CONSTRAINT " ++ constraint_name env c true ++ " " ++ e)

/-- `AlterTableDropMultiConstraint.code`. -/
def drop_multi_constraint_code (env : Env)
    (c : SchemaConstraintTableConstraint) : Except String String :=
  match constraint_code c with
  | Except.error e => Except.error e
  | Except.ok (Sum.inr exprs) =>
    if 1 < exprs.length then
      Except.ok (String.intercalate ", "
        (exprs.enum.map (fun p =>
          "DROP CONSTRAINT " ++ numbered_constraint_name env c p.1 true)))
    else
      Except.ok ("DROP CONSTRAINT " ++ constraint_name env c true)
  | Except.ok (Sum.inl _) =>
    Except.ok ("DROP CONSTRAINT " ++ constraint_name env c true)

/-! ### Command objects

The lifecycle methods of `AlterTableInheritableConstraintBase` accumulate
command objects via `add_command`/`add_commands`; a command group is embedded
as the list of those objects in insertion order. -/

/-- A `dbops.Trigger` record. -/
structure Trigger where
  name : String
  table_name : String × String
  events : List String
  procedure : String
  condition : Option String := none
  is_constraint : Bool
  inherit : Bool
  deriving DecidableEq, Repr

/-- A `dbops.Function` record (the fields set by
`create_constr_trigger_function`). -/
structure PgFunction where
  name : String
  text : String
  volatility : String
  returns : String
  language : String
  deriving DecidableEq, Repr

/-- One command object added to the lifecycle command group. -/
inductive Cmd where
  | alterTableAddConstraint (table : String × String)
      (c : SchemaConstraintTableConstraint)
  | alterTableDropConstraint (table : String × String)
      (c : SchemaConstraintTableConstraint)
  | alterTableRenameConstraints (table : String × String)
      (old new : SchemaConstraintTableConstraint)
  | createOrReplaceFunction (f : PgFunction)
  | dropFunction (name : String)
  | renameFunction (name new_name : String)
  | createTrigger (t : Trigger)
  | disableTrigger (t : Trigger) (self_only : Bool)
  | dropTrigger (t : Trigger)
  | renameTrigger (t : Trigger) (new_name : String)
  deriving DecidableEq, Repr

/-! ### Trigger-emulation engine
(`AlterTableInheritableConstraintBase` methods) -/

/-- The insert trigger record built by `create_constr_trigger`. -/
def ins_trigger (env : Env) (table_name : String × String)
    (c : SchemaConstraintTableConstraint) (proc_name : String) : Trigger :=
  { name := env.mangle (raw_constraint_name c.constr_id ++ "_instrigger")
    table_name := table_name
    events := ["insert"]
    procedure := proc_name
    condition := none
    is_constraint := true
    inherit := true }

/-- The update trigger record built by `create_constr_trigger`, carrying
`get_trigger_condition()` as its firing condition. -/
def upd_trigger (env : Env) (table_name : String × String)
    (c : SchemaConstraintTableConstraint) (proc_name : String) : Trigger :=
  { name := env.mangle (raw_constraint_name c.constr_id ++ "_updtrigger")
    table_name := table_name
    events := ["update"]
    procedure := proc_name
    condition := some (get_trigger_condition c)
    is_constraint := true
    inherit := true }

/-- `create_constr_trigger`: create the insert trigger, disable it on self
only, create the update trigger, disable it on self only — in this order. -/
def create_constr_trigger (env : Env) (table_name : String × String)
    (c : SchemaConstraintTableConstraint) (proc_name : String) : List Cmd :=
  [ Cmd.createTrigger (ins_trigger env table_name c proc_name),
    Cmd.disableTrigger (ins_trigger env table_name c proc_name) true,
    Cmd.createTrigger (upd_trigger env table_name c proc_name),
    Cmd.disableTrigger (upd_trigger env table_name c proc_name) true ]

/-- The stub insert trigger record used by `drop_constr_trigger` and
`rename_constr_trigger` (procedure hard-wired to `'null'`). -/
def ins_trigger_stub (env : Env) (table_name : String × String)
    (c : SchemaConstraintTableConstraint) : Trigger :=
  ins_trigger env table_name c "null"

/-- The stub update trigger record used by `drop_constr_trigger` and
`rename_constr_trigger` (no condition, procedure `'null'`). -/
def upd_trigger_stub (env : Env) (table_name : String × String)
    (c : SchemaConstraintTableConstraint) : Trigger :=
  { name := env.mangle (raw_constraint_name c.constr_id ++ "_updtrigger")
    table_name := table_name
    events := ["update"]
    procedure := "null"
    condition := none
    is_constraint := true
    inherit := true }

/-- `drop_constr_trigger`: drop the insert trigger, then the update
trigger. -/
def drop_constr_trigger (env : Env) (table_name : String × String)
    (c : SchemaConstraintTableConstraint) : List Cmd :=
  [ Cmd.dropTrigger (ins_trigger_stub env table_name c),
    Cmd.dropTrigger (upd_trigger_stub env table_name c) ]

/-- `rename_constr_trigger`: rename both triggers to the names derived from
the new constraint. -/
def rename_constr_trigger (env : Env) (table_name : String × String)
    (c nc : SchemaConstraintTableConstraint) : List Cmd :=
  [ Cmd.renameTrigger (ins_trigger_stub env table_name c)
      (env.mangle (raw_constraint_name nc.constr_id ++ "_instrigger")),
    Cmd.renameTrigger (upd_trigger_stub env table_name c)
      (env.mangle (raw_constraint_name nc.constr_id ++ "_updtrigger")) ]

/-- The trigger function record built by `create_constr_trigger_function`. -/
def trigger_function (env : Env) (c : SchemaConstraintTableConstraint) :
    PgFunction :=
  { name := env.procname c.constr_id
    text := get_trigger_proc_text env c
    volatility := "stable"
    returns := "trigger"
    language := "plpgsql" }

/-- `create_constr_trigger_function`. -/
def create_constr_trigger_function (env : Env)
    (c : SchemaConstraintTableConstraint) : List Cmd :=
  [ Cmd.createOrReplaceFunction (trigger_function env c) ]

/-- `drop_constr_trigger_function`. -/
def drop_constr_trigger_function (proc_name : String) : List Cmd :=
  [ Cmd.dropFunction proc_name ]

/-! ### Lifecycle orchestrator -/

/-- `AlterTableInheritableConstraintBase.create_constraint`: add the physical
constraint(s), and for a non-natively-inherited kind also the trigger
function and the (disabled) inheritable trigger pair. -/
def create_constraint (env : Env) (name : String × String)
    (c : SchemaConstraintTableConstraint) : List Cmd :=
  [ Cmd.alterTableAddConstraint name c ] ++
    (if is_natively_inherited c then []
     else
       create_constr_trigger_function env c ++
         create_constr_trigger env name c (env.procname c.constr_id))

/-- `AlterTableInheritableConstraintBase.drop_constraint`: for a
non-natively-inherited kind drop the trigger pair then the trigger function,
then drop the physical constraint(s). -/
def drop_constraint (env : Env) (name : String × String)
    (c : SchemaConstraintTableConstraint) : List Cmd :=
  (if is_natively_inherited c then []
   else
     drop_constr_trigger env name c ++
       drop_constr_trigger_function (env.procname c.constr_id)) ++
    [ Cmd.alterTableDropConstraint name c ]

/-- `AlterTableInheritableConstraintBase.rename_constraint`. -/
def rename_constraint (env : Env) (name : String × String)
    (c nc : SchemaConstraintTableConstraint) : List Cmd :=
  [ Cmd.alterTableRenameConstraints name c nc ] ++
    (if is_natively_inherited c then []
     else
       [ Cmd.renameFunction (env.procname c.constr_id) (env.procname nc.constr_id) ] ++
         create_constr_trigger_function env nc ++
         rename_constr_trigger env name c nc)

/-- `AlterTableInheritableConstraintBase.alter_constraint`: the four cases
keyed by the before/after delegation flags. -/
def alter_constraint (env : Env) (name : String × String)
    (c nc : SchemaConstraintTableConstraint) : List Cmd :=
  if c.delegated && !nc.delegated then
    create_constraint env name nc
  else if !c.delegated && nc.delegated then
    drop_constraint env name c
  else if !nc.delegated then
    drop_constraint env name c ++ create_constraint env name nc
  else
    []

/-- `AlterTableAddInheritableConstraint.generate`: materialize only when not
delegated. -/
def add_generate (env : Env) (name : String × String)
    (c : SchemaConstraintTableConstraint) : List Cmd :=
  if !c.delegated then create_constraint env name c else []

/-- `AlterTableRenameInheritableConstraint.generate`. -/
def rename_generate (env : Env) (name : String × String)
    (c nc : SchemaConstraintTableConstraint) : List Cmd :=
  if !c.delegated then rename_constraint env name c nc else []

/-- `AlterTableAlterInheritableConstraint.generate`. -/
def alter_generate (env : Env) (name : String × String)
    (c nc : SchemaConstraintTableConstraint) : List Cmd :=
  alter_constraint env name c nc

/-- `AlterTableDropInheritableConstraint.generate`. -/
def drop_generate (env : Env) (name : String × String)
    (c : SchemaConstraintTableConstraint) : List Cmd :=
  if !c.delegated then drop_constraint env name c else []

/-! ### Role command set (`edb/pgsql/dbops/roles.py`)

`password = None` is embedded as `none` and a Python string as `some`;
`membership = None` and the empty list are both embedded as `[]` (both are
falsy in the `if self.object.membership:` test). -/

/-- A `Role` object. -/
structure Role where
  name : String
  allow_login : Bool := false
  password : Option String := none
  is_superuser : Bool := false
  membership : List String := []
  deriving DecidableEq, Repr

/-- `RoleCommand._render`: the common `ROLE ...` clause.  The password part
follows Python truthiness: `None` and the empty string both render
`PASSWORD NULL`. -/
def role_render (qi ql : String → String) (r : Role) : String :=
  let superuser := if r.is_superuser then "SUPERUSER" else ""
  let login := if r.allow_login then "LOGIN" else "NOLOGIN"
  let password :=
    match r.password with
    | some p => if p = "" then "PASSWORD NULL" else "PASSWORD " ++ ql p
    | none => "PASSWORD NULL"
  "ROLE " ++ qi r.name ++ " " ++ superuser ++ " " ++ login ++ " " ++ password

/-- `CreateRole.code`. -/
def create_role_code (qi ql : String → String) (r : Role) : String :=
  let membership :=
    if r.membership.isEmpty then ""
    else "IN ROLE " ++ String.intercalate ", " (r.membership.map qi)
  "CREATE " ++ role_render qi ql r ++ " " ++ membership

/-- `AlterRole.code`. -/
def alter_role_code (qi ql : String → String) (r : Role) : String :=
  "ALTER " ++ role_render qi ql r

/-- `DropRole.code`. -/
def drop_role_code (qi : String → String) (name : String) : String :=
  "DROP ROLE " ++ qi name

/-- The role clause up to (and including) the space before the password
part; used to state where the password clause sits inside the rendered
statement. -/
def role_head (qi : String → String) (r : Role) : String :=
  "ROLE " ++ qi r.name ++ " " ++ (if r.is_superuser then "SUPERUSER" else "") ++
    " " ++ (if r.allow_login then "LOGIN" else "NOLOGIN") ++ " "

/-- The membership tail of `CreateRole.code`. -/
def role_membership_clause (qi : String → String) (r : Role) : String :=
  " " ++ (if r.membership.isEmpty then ""
          else "IN ROLE " ++ String.intercalate ", " (r.membership.map qi))

/-! ### Concrete fixtures used by witnesses and counterexamples -/

/-- A concrete environment: identity mangling/quoting, `_trigproc` suffix
for the backend function name. -/
def env0 : Env :=
  { mangle := fun s => s
    qi := fun s => s
    ql := fun s => s
    procname := fun s => s ++ "_trigproc" }

/-- An environment whose mangle is not idempotent-composable, separating
`mangle(raw + "#" + i)` from `mangle(mangle(raw) + "#" + i)`. -/
def env_bang : Env :=
  { mangle := fun s => s ++ "!"
    qi := fun s => s
    ql := fun s => s
    procname := fun s => s }

def tbl0 : String × String := ("public", "accounts")

/-- A trivial unique fragment over columns `a`, `b`. -/
def frag_ab : ExprFragment :=
  { exprdata := { plain := "a = b", old := "OLD.a", new := "NEW.a",
                  plain_chunks := ["a", "b"] }
    is_trivial := true }

/-- A non-trivial unique fragment over the expression `lower(a)`. -/
def frag_lower : ExprFragment :=
  { exprdata := { plain := "lower(a)", old := "lower(OLD.a)",
                  new := "lower(NEW.a)", plain_chunks := ["lower(a)"] }
    is_trivial := false }

/-- A second non-trivial unique fragment over `upper(b)`. -/
def frag_upper : ExprFragment :=
  { exprdata := { plain := "upper(b)", old := "upper(OLD.b)",
                  new := "upper(NEW.b)", plain_chunks := ["upper(b)"] }
    is_trivial := false }

/-- A row-scope check fragment. -/
def frag_age : ExprFragment :=
  { exprdata := { plain := "age >= 0", old := "OLD.age >= 0",
                  new := "NEW.age >= 0", plain_chunks := ["age"] }
    is_trivial := false }

/-- A second row-scope check fragment. -/
def frag_pos : ExprFragment :=
  { exprdata := { plain := "size > 0", old := "OLD.size > 0",
                  new := "NEW.size > 0", plain_chunks := ["size"] }
    is_trivial := false }

/-- Row-scope check constraint with one fragment on table `people`. -/
def c_row : SchemaConstraintTableConstraint :=
  { table_name := ("public", "people"), constr_id := "c0", delegated := false,
    exprdata := [frag_age], scope := "row", type := "check" }

/-- Row-scope check constraint with two fragments. -/
def c_row2 : SchemaConstraintTableConstraint :=
  { table_name := ("public", "people"), constr_id := "c0", delegated := false,
    exprdata := [frag_age, frag_pos], scope := "row", type := "check" }

/-- Table-wide unique constraint with two non-trivial fragments on
`accounts`. -/
def c_wide2 : SchemaConstraintTableConstraint :=
  { table_name := tbl0, constr_id := "c1", delegated := false,
    exprdata := [frag_lower, frag_upper], scope := "relation",
    type := "unique" }

/-- Table-wide unique constraint with exactly one fragment. -/
def c_wide1 : SchemaConstraintTableConstraint :=
  { table_name := tbl0, constr_id := "c1", delegated := false,
    exprdata := [frag_lower], scope := "relation", type := "unique" }

/-- Table-wide unique constraint with a trivial and a non-trivial
fragment. -/
def c_wide_mixed : SchemaConstraintTableConstraint :=
  { table_name := tbl0, constr_id := "c2", delegated := false,
    exprdata := [frag_ab, frag_lower], scope := "relation", type := "unique" }

/-- A delegated descriptor. -/
def c_delegated : SchemaConstraintTableConstraint :=
  { table_name := tbl0, constr_id := "c3", delegated := true,
    exprdata := [frag_lower], scope := "relation", type := "unique" }

/-- A table-wide descriptor with a non-unique kind. -/
def c_badkind : SchemaConstraintTableConstraint :=
  { table_name := tbl0, constr_id := "c4", delegated := false,
    exprdata := [frag_lower], scope := "relation", type := "exclusion" }

/-- Domain constraint with one fragment. -/
def d_one : SchemaConstraintDomainConstraint :=
  { domain_name := ("public", "age_t"), constr_id := "d0", delegated := false,
    exprdata := [frag_age] }

/-- Domain constraint with two fragments: the failing input of the
multi-fragment domain rendering bug. -/
def d_two : SchemaConstraintDomainConstraint :=
  { domain_name := ("public", "age_t"), constr_id := "d0", delegated := false,
    exprdata := [frag_age, frag_pos] }

/-- A role with a non-empty password and one membership. -/
def role_app : Role :=
  { name := "app_user", allow_login := true, password := some "hunter2",
    is_superuser := false, membership := ["readers"] }

/-! ### Theorems -/

/-- C1: the Alter lifecycle transition emits exactly one of four command
sequences keyed by the delegation flags of the old and new descriptors:
(delegated, delegated) emits nothing; (delegated, not) emits exactly the
commands of Create(new); (not, delegated) emits exactly the commands of
Drop(old); (not, not) emits the commands of Drop(old) followed by the
commands of Create(new). -/
theorem alter_transition_matrix (env : Env) (name : String × String)
    (c nc : SchemaConstraintTableConstraint) :
    alter_generate env name c nc =
      match c.delegated, nc.delegated with
      | true, true => []
      | true, false => add_generate env name nc
      | false, true => drop_generate env name c
      | false, false => drop_generate env name c ++ add_generate env name nc := by
  cases h1 : c.delegated <;> cases h2 : nc.delegated <;>
    simp [alter_generate, alter_constraint, add_generate, drop_generate, h1, h2]

/-- C2: for a delegated descriptor the Create, Rename and Drop transitions
all produce an empty command group — no physical constraint, trigger or
trigger-function command. -/
theorem delegated_suppresses_materialization (env : Env)
    (name : String × String) (c nc : SchemaConstraintTableConstraint)
    (h : c.delegated = true) :
    add_generate env name c = [] ∧ rename_generate env name c nc = [] ∧
      drop_generate env name c = [] := by
  simp [add_generate, rename_generate, drop_generate, h]

/-- C2 witness: a concrete delegated descriptor yields empty command groups
for all three transitions. -/
theorem delegated_suppresses_materialization_witness :
    add_generate env0 tbl0 c_delegated = [] ∧
    rename_generate env0 tbl0 c_delegated c_wide1 = [] ∧
    drop_generate env0 tbl0 c_delegated = [] :=
  delegated_suppresses_materialization env0 tbl0 c_delegated c_wide1 rfl

/-- C9: a table-wide (non-row) descriptor with a kind other than `unique`
fails to render: `constraint_code` raises the `unexpected constraint type`
error, the `ADD`/`DROP` command code methods propagate exactly that error,
and no (partial) constraint text is produced. -/
theorem tablewide_nonunique_fatal (env : Env)
    (c : SchemaConstraintTableConstraint)
    (hs : c.scope ≠ "row") (ht : c.type ≠ "unique") :
    constraint_code c = Except.error ("unexpected constraint type: " ++ c.type) ∧
    add_multi_constraint_code env c =
      Except.error ("unexpected constraint type: " ++ c.type) ∧
    drop_multi_constraint_code env c =
      Except.error ("unexpected constraint type: " ++ c.type) := by
  have h1 : constraint_code c =
      Except.error ("unexpected constraint type: " ++ c.type) := by
    simp [constraint_code, hs, ht]
  exact ⟨h1, by simp [add_multi_constraint_code, h1],
    by simp [drop_multi_constraint_code, h1]⟩

/-- C9 witness: a concrete table-wide descriptor of kind `exclusion` hits
the fatal error. -/
theorem tablewide_nonunique_fatal_witness :
    constraint_code c_badkind =
      Except.error "unexpected constraint type: exclusion" := by
  rw [(tablewide_nonunique_fatal env0 c_badkind (by decide) (by decide)).1]
  rfl

/-- C8 (code bug): row-scope rendering conjoins every fragment with `AND`
for table subjects, and for a single-fragment domain subject, but the
multi-fragment domain path of the source indexes the fragment list with the
string key `exprdata` (line 84 of `deltadbops.py`) and so raises `TypeError`
instead of producing the `CHECK` text. -/
theorem domain_multi_fragment_crash :
    domain_constraint_code d_one = Except.ok "CHECK (age >= 0)" ∧
    constraint_code c_row2 =
      Except.ok (Sum.inl "CHECK ((age >= 0) AND (size > 0))") ∧
    domain_constraint_code d_two =
      Except.error "TypeError: list indices must be integers or slices, not str" :=
  ⟨rfl, rfl, rfl⟩

/-- C4: row scope always renders one single constraint text; a table-wide
`unique` descriptor renders one clause per fragment, and the `ADD`/`DROP`
command code joins independently numbered clauses exactly when there is more
than one fragment, while a single-fragment table-wide descriptor is emitted
as one clause under the base physical name. -/
theorem single_multi_selection (env : Env)
    (c : SchemaConstraintTableConstraint) :
    (c.scope = "row" →
      constraint_code c =
        Except.ok (Sum.inl ("CHECK (" ++ row_check_expr c.exprdata ++ ")"))) ∧
    (c.scope ≠ "row" → c.type = "unique" →
      constraint_code c = Except.ok (Sum.inr (c.exprdata.map fragment_code)) ∧
      (1 < c.exprdata.length →
        add_multi_constraint_code env c = Except.ok (String.intercalate ", "
          ((c.exprdata.map fragment_code).enum.map (fun p =>
            "ADD CONSTRAINT " ++ numbered_constraint_name env c p.1 true ++
              " " ++ p.2))) ∧
        drop_multi_constraint_code env c = Except.ok (String.intercalate ", "
          ((c.exprdata.map fragment_code).enum.map (fun p =>
            "DROP CONSTRAINT " ++ numbered_constraint_name env c p.1 true)))) ∧
      (∀ e, c.exprdata = [e] →
        add_multi_constraint_code env c = Except.ok
          ("ADD CONSTRAINT " ++ constraint_name env c true ++ " " ++
            fragment_code e) ∧
        drop_multi_constraint_code env c = Except.ok
          ("DROP CONSTRAINT " ++ constraint_name env c true))) := by
  refine ⟨fun hrow => by simp [constraint_code, hrow], fun hs ht => ?_⟩
  have hcc : constraint_code c =
      Except.ok (Sum.inr (c.exprdata.map fragment_code)) := by
    simp [constraint_code, hs, ht]
  refine ⟨hcc, fun hlen => ?_, fun e he => ?_⟩
  · constructor
    · simp [add_multi_constraint_code, hcc, hlen]
    · simp [drop_multi_constraint_code, hcc, hlen]
  · constructor
    · simp [add_multi_constraint_code, hcc, he]
    · simp [drop_multi_constraint_code, hcc, he]

/-- C4 witness: a row descriptor renders a single `CHECK`, a two-fragment
table-wide unique descriptor renders two numbered clauses, and a
one-fragment table-wide descriptor renders one clause under the base
name. -/
theorem single_multi_selection_witness :
    constraint_code c_row = Except.ok (Sum.inl "CHECK (age >= 0)") ∧
    add_multi_constraint_code env0 c_wide2 = Except.ok
      "ADD CONSTRAINT c1;schemaconstr#0 EXCLUDE (lower(a) WITH =), ADD CONSTRAINT c1;schemaconstr#1 EXCLUDE (upper(b) WITH =)" ∧
    add_multi_constraint_code env0 c_wide1 = Except.ok
      "ADD CONSTRAINT c1;schemaconstr EXCLUDE (lower(a) WITH =)" := by
  refine ⟨?_, ?_, ?_⟩
  · rw [(single_multi_selection env0 c_row).1 rfl]
    rfl
  · rw [((single_multi_selection env0 c_wide2).2 (by decide) rfl).2.1
      (by decide) |>.1]
    rfl
  · rw [((single_multi_selection env0 c_wide1).2 (by decide) rfl).2.2
      frag_lower rfl |>.1]
    rfl

/-- C7: in a table-wide `unique` descriptor every fragment renders through
`fragment_code`: a trivial fragment as `UNIQUE (<comma-joined
plain_chunks>)`, a non-trivial fragment as an `EXCLUDE` constraint pairing
every chunk with the equality operator class. -/
theorem unique_fragment_rendering (c : SchemaConstraintTableConstraint)
    (e : ExprFragment) (hs : c.scope ≠ "row") (ht : c.type = "unique")
    (he : e ∈ c.exprdata) :
    constraint_code c = Except.ok (Sum.inr (c.exprdata.map fragment_code)) ∧
    fragment_code e ∈ c.exprdata.map fragment_code ∧
    (e.is_trivial = true →
      fragment_code e =
        "UNIQUE (" ++ String.intercalate ", " e.exprdata.plain_chunks ++ ")") ∧
    (e.is_trivial = false →
      fragment_code e = "EXCLUDE (" ++
        String.intercalate ", "
          (e.exprdata.plain_chunks.map (fun chunk => chunk ++ " WITH =")) ++
        ")") := by
  refine ⟨by simp [constraint_code, hs, ht], List.mem_map_of_mem _ he,
    fun h => ?_, fun h => ?_⟩ <;> simp [fragment_code, h]

/-- C7 witness: the trivial fragment with chunks `a`, `b` renders
`UNIQUE (a, b)` and the non-trivial fragment with chunk `lower(a)` renders
`EXCLUDE (lower(a) WITH =)`. -/
theorem unique_fragment_rendering_witness :
    fragment_code frag_ab = "UNIQUE (a, b)" ∧
    fragment_code frag_lower = "EXCLUDE (lower(a) WITH =)" := by
  constructor
  · rw [(unique_fragment_rendering c_wide_mixed frag_ab (by decide) rfl
      (by decide)).2.2.1 rfl]
    rfl
  · rw [(unique_fragment_rendering c_wide_mixed frag_lower (by decide) rfl
      (by decide)).2.2.2 rfl]
    rfl

/-- C5 counterexample: the Create transition for a concrete non-delegated,
non-`check` descriptor does not place the creation of the update trigger
directly after the creation of the insert trigger with the two disable
steps at the end (in either disable order): the insert trigger is disabled
before the update trigger is created. -/
theorem create_build_order_counterexample :
    add_generate env0 tbl0 c_wide2 ≠
      [ Cmd.alterTableAddConstraint tbl0 c_wide2,
        Cmd.createOrReplaceFunction (trigger_function env0 c_wide2),
        Cmd.createTrigger (ins_trigger env0 tbl0 c_wide2 "c1_trigproc"),
        Cmd.createTrigger (upd_trigger env0 tbl0 c_wide2 "c1_trigproc"),
        Cmd.disableTrigger (ins_trigger env0 tbl0 c_wide2 "c1_trigproc") true,
        Cmd.disableTrigger (upd_trigger env0 tbl0 c_wide2 "c1_trigproc") true ] ∧
    add_generate env0 tbl0 c_wide2 ≠
      [ Cmd.alterTableAddConstraint tbl0 c_wide2,
        Cmd.createOrReplaceFunction (trigger_function env0 c_wide2),
        Cmd.createTrigger (ins_trigger env0 tbl0 c_wide2 "c1_trigproc"),
        Cmd.createTrigger (upd_trigger env0 tbl0 c_wide2 "c1_trigproc"),
        Cmd.disableTrigger (upd_trigger env0 tbl0 c_wide2 "c1_trigproc") true,
        Cmd.disableTrigger (ins_trigger env0 tbl0 c_wide2 "c1_trigproc") true ] := by
  have hgen : add_generate env0 tbl0 c_wide2 =
      [ Cmd.alterTableAddConstraint tbl0 c_wide2,
        Cmd.createOrReplaceFunction (trigger_function env0 c_wide2),
        Cmd.createTrigger (ins_trigger env0 tbl0 c_wide2 "c1_trigproc"),
        Cmd.disableTrigger (ins_trigger env0 tbl0 c_wide2 "c1_trigproc") true,
        Cmd.createTrigger (upd_trigger env0 tbl0 c_wide2 "c1_trigproc"),
        Cmd.disableTrigger (upd_trigger env0 tbl0 c_wide2 "c1_trigproc") true ] := by
    simp [add_generate, create_constraint, is_natively_inherited,
      create_constr_trigger_function, create_constr_trigger, c_wide2, env0]
  rw [hgen]
  constructor <;> intro h <;> simp at h

/-- C5 (amended): for a non-delegated descriptor of a non-natively-inherited
kind the Create transition emits, in this order: the physical
`ADD CONSTRAINT` command, the create-or-replace of the trigger function with
the generated body, the creation of the insert trigger bound to that
function as an inheritable constraint trigger, the self-only disable of the
insert trigger, the creation of the update trigger with
`get_trigger_condition()` as its firing condition, and the self-only disable
of the update trigger — each trigger is disabled immediately after its own
creation, one disable step per trigger. -/
theorem create_build_order (env : Env) (name : String × String)
    (c : SchemaConstraintTableConstraint)
    (hd : c.delegated = false) (hni : c.type ≠ "check") :
    add_generate env name c =
      [ Cmd.alterTableAddConstraint name c,
        Cmd.createOrReplaceFunction (trigger_function env c),
        Cmd.createTrigger (ins_trigger env name c (env.procname c.constr_id)),
        Cmd.disableTrigger (ins_trigger env name c (env.procname c.constr_id))
          true,
        Cmd.createTrigger (upd_trigger env name c (env.procname c.constr_id)),
        Cmd.disableTrigger (upd_trigger env name c (env.procname c.constr_id))
          true ] := by
  simp [add_generate, create_constraint, is_natively_inherited, hd, hni,
    create_constr_trigger_function, create_constr_trigger]

/-- C5 witness: the Create transition of a concrete two-fragment emulated
unique constraint emits the six build commands in code order. -/
theorem create_build_order_witness :
    add_generate env0 tbl0 c_wide2 =
      [ Cmd.alterTableAddConstraint tbl0 c_wide2,
        Cmd.createOrReplaceFunction (trigger_function env0 c_wide2),
        Cmd.createTrigger (ins_trigger env0 tbl0 c_wide2 "c1_trigproc"),
        Cmd.disableTrigger (ins_trigger env0 tbl0 c_wide2 "c1_trigproc") true,
        Cmd.createTrigger (upd_trigger env0 tbl0 c_wide2 "c1_trigproc"),
        Cmd.disableTrigger (upd_trigger env0 tbl0 c_wide2 "c1_trigproc") true ] := by
  rw [create_build_order env0 tbl0 c_wide2 rfl (by decide)]
  rfl

/-- C6: for a non-delegated descriptor of a non-natively-inherited kind the
Drop transition emits the drop of the insert and update triggers first, then
the drop of the trigger function, and the physical `DROP CONSTRAINT`
command strictly last. -/
theorem drop_order (env : Env) (name : String × String)
    (c : SchemaConstraintTableConstraint)
    (hd : c.delegated = false) (hni : c.type ≠ "check") :
    drop_generate env name c =
      [ Cmd.dropTrigger (ins_trigger_stub env name c),
        Cmd.dropTrigger (upd_trigger_stub env name c),
        Cmd.dropFunction (env.procname c.constr_id),
        Cmd.alterTableDropConstraint name c ] := by
  simp [drop_generate, drop_constraint, is_natively_inherited, hd, hni,
    drop_constr_trigger, drop_constr_trigger_function]

/-- C6 witness: the Drop transition of a concrete emulated unique constraint
emits trigger drops, then the function drop, then the constraint drop. -/
theorem drop_order_witness :
    drop_generate env0 tbl0 c_wide2 =
      [ Cmd.dropTrigger (ins_trigger_stub env0 tbl0 c_wide2),
        Cmd.dropTrigger (upd_trigger_stub env0 tbl0 c_wide2),
        Cmd.dropFunction "c1_trigproc",
        Cmd.alterTableDropConstraint tbl0 c_wide2 ] := by
  rw [drop_order env0 tbl0 c_wide2 rfl (by decide)]
  rfl

/-- C3 counterexample: the numbered physical name is not
`mangle(base_name + "#" + i)` for `base_name` the mangled base physical
name: with a concrete mangle the code's numbered name (which mangles the
raw, unmangled base name) differs from that formula. -/
theorem numbered_name_not_mangled_base :
    numbered_constraint_name env_bang c_wide2 0 false ≠
      env_bang.mangle
        (constraint_name env_bang c_wide2 false ++ "#" ++ Nat.repr 0) := by
  decide

/-- C3 (amended): the base physical name is
`mangle(constraint_id + ";schemaconstr")`; the i-th numbered physical piece
is `mangle(raw_base + "#" + i)` where `raw_base` is the raw, unmangled base
name `constraint_id + ";schemaconstr"`; for an injective mangle distinct
indices give distinct numbered names; and all names depend only on the
constraint id — repeated calls and fragment-content changes leave them
unchanged. -/
theorem constraint_naming_amended (env : Env)
    (c c2 : SchemaConstraintTableConstraint) (i j : Nat)
    (hinj : Function.Injective env.mangle) (hij : i ≠ j)
    (hid : c.constr_id = c2.constr_id) :
    constraint_name env c false =
      env.mangle (c.constr_id ++ ";" ++ "schemaconstr") ∧
    numbered_constraint_name env c i false =
      env.mangle (c.constr_id ++ ";" ++ "schemaconstr" ++ "#" ++ Nat.repr i) ∧
    numbered_constraint_name env c i false ≠
      numbered_constraint_name env c j false ∧
    constraint_name env c false = constraint_name env c2 false ∧
    numbered_constraint_name env c i false =
      numbered_constraint_name env c2 i false := by
  refine ⟨rfl, rfl, ?_, by simp [constraint_name, raw_constraint_name, hid],
    by simp [numbered_constraint_name, raw_constraint_name, hid]⟩
  intro hcontra
  apply hij
  have harg := hinj hcontra
  have hdata := congrArg String.data harg
  simp only [String.data_append] at hdata
  have hrepr : (Nat.repr i).data = (Nat.repr j).data :=
    List.append_cancel_left hdata
  exact natRepr_injective (String.ext hrepr)

/-- C3 witness: with the identity mangle, the base name of a concrete
constraint is `c1;schemaconstr` and the numbered pieces for indices 0 and 1
are distinct. -/
theorem constraint_naming_amended_witness :
    constraint_name env0 c_wide2 false = "c1;schemaconstr" ∧
    numbered_constraint_name env0 c_wide2 0 false ≠
      numbered_constraint_name env0 c_wide2 1 false := by
  have h := constraint_naming_amended env0 c_wide2 c_wide2 0 1
    (fun a b hab => hab) (by decide) rfl
  exact ⟨by rw [h.1]; rfl, h.2.2.1⟩

/-- C10: in both the `CREATE ROLE` and `ALTER ROLE` statements the password
clause is `PASSWORD NULL` exactly when the role's password is `None` or the
empty string, and `PASSWORD <quoted literal>` for a non-empty password; an
empty-string password renders identically to no password at all. -/
theorem role_password_rendering (qi ql : String → String) (r : Role) :
    ((r.password = none ∨ r.password = some "") →
      create_role_code qi ql r =
        "CREATE " ++ (role_head qi r ++ "PASSWORD NULL") ++
          role_membership_clause qi r ∧
      alter_role_code qi ql r =
        "ALTER " ++ (role_head qi r ++ "PASSWORD NULL")) ∧
    (∀ p, r.password = some p → p ≠ "" →
      create_role_code qi ql r =
        "CREATE " ++ (role_head qi r ++ ("PASSWORD " ++ ql p)) ++
          role_membership_clause qi r ∧
      alter_role_code qi ql r =
        "ALTER " ++ (role_head qi r ++ ("PASSWORD " ++ ql p))) ∧
    (create_role_code qi ql { r with password := some "" } =
       create_role_code qi ql { r with password := none } ∧
     alter_role_code qi ql { r with password := some "" } =
       alter_role_code qi ql { r with password := none }) := by
  have hc : ∀ s : Role, create_role_code qi ql s =
      "CREATE " ++ role_render qi ql s ++ role_membership_clause qi s := by
    intro s
    simp [create_role_code, role_membership_clause, String.append_assoc]
  have ha : ∀ s : Role, alter_role_code qi ql s =
      "ALTER " ++ role_render qi ql s := fun s => rfl
  refine ⟨fun hp => ?_, fun p hp hne => ?_, ?_⟩
  · have hnull : role_render qi ql r = role_head qi r ++ "PASSWORD NULL" := by
      rcases hp with hp | hp <;>
        simp [role_render, role_head, hp, String.append_assoc]
    rw [hc r, ha r, hnull]
    exact ⟨by rw [String.append_assoc], rfl⟩
  · have hpw : role_render qi ql r = role_head qi r ++ ("PASSWORD " ++ ql p) := by
      simp [role_render, role_head, hp, hne, String.append_assoc]
    rw [hc r, ha r, hpw]
    exact ⟨by rw [String.append_assoc], rfl⟩
  · constructor <;>
      simp [create_role_code, alter_role_code, role_render]

/-- C10 witness: concrete renderings for a role with password `hunter2`,
for the same role with no password, and the empty-string/`None`
coincidence. -/
theorem role_password_rendering_witness :
    create_role_code (fun s => s) (fun s => s) role_app =
      "CREATE ROLE app_user  LOGIN PASSWORD hunter2 IN ROLE readers" ∧
    create_role_code (fun s => s) (fun s => s)
      { role_app with password := none } =
      "CREATE ROLE app_user  LOGIN PASSWORD NULL IN ROLE readers" ∧
    create_role_code (fun s => s) (fun s => s)
      { role_app with password := some "" } =
      create_role_code (fun s => s) (fun s => s)
      { role_app with password := none } := by
  refine ⟨?_, ?_, ?_⟩
  · rw [((role_password_rendering (fun s => s) (fun s => s) role_app).2.1
      "hunter2" rfl (by decide)).1]
    rfl
  · rw [((role_password_rendering (fun s => s) (fun s => s)
      { role_app with password := none }).1 (Or.inl rfl)).1]
    rfl
  · exact (role_password_rendering (fun s => s) (fun s => s) role_app).2.2.1

end Edb
